import Mathlib

/-!
Shallow embedding of `src/create_channles.py`, a one-shot batch job that
creates Slack channels from a declarative list.

The remote API and the filesystem are modelled as an oracle (`World`,
`Config`): every outcome a `requests` call or a file load can have in the
Python source is a constructor of the corresponding outcome type, and the
embedding computes, from the oracle, both the control-flow result of each
Python function and the trace of remote calls it issues.
-/

set_option autoImplicit false

namespace CreateChannels

/-- Outcome of one `requests` call as seen by the Python code:
`transportErr` is a `RequestException` raised by `requests.get`/`post`
itself (network-level), `httpErr` is the `HTTPError` raised by
`raise_for_status()` on a bad HTTP status (also a `RequestException`),
`notOk` is a JSON envelope with `ok: false` carrying an `error` field, and
`ok` is an `ok: true` envelope carrying the payload the code reads. -/
inductive ApiOutcome (α : Type) where
  | transportErr
  | httpErr
  | notOk (errMsg : String)
  | ok (val : α)
deriving DecidableEq

/-- Outcome of the `conversations.invite` call in `invite_users_to_channel`.
`transportAtPost` is a `RequestException` raised by the `requests.post`
call itself, which in the source stands OUTSIDE the `try` block;
`httpErr` is the `HTTPError` from `raise_for_status()` inside the `try`. -/
inductive InviteOutcome where
  | transportAtPost
  | httpErr
  | notOk (errMsg : String)
  | ok
deriving DecidableEq

/-- One element of the `channels` array of a `conversations.list` response:
only `id` and `name` are ever read. -/
structure ExistingChannel where
  id : String
  name : String
deriving DecidableEq

/-- One JSON object of `channels.json`; each field may be absent
(`none`), matching `channel.get(...)` / `channel["..."]` access. -/
structure ChannelEntry where
  name : Option String
  description : Option String
  is_private : Option Bool
deriving DecidableEq

/-- The parsed `init_invite_users.json` document; the `users` key may be
absent, in which case `invite_users_list["users"]` raises `KeyError`. -/
structure InviteDoc where
  users : Option (List String)
deriving DecidableEq

/-- Response oracle for the remote API: each function gives the outcome of
the call as a function of the request payload the code sends. -/
structure World where
  listOutcome : ApiOutcome (List ExistingChannel)
  createOutcome : Option String → Bool → ApiOutcome String
  purposeOutcome : String → String → ApiOutcome Unit
  inviteOutcome : String → String → InviteOutcome

/-- Observable actions of a run: the four remote calls, each recorded at
the moment the corresponding `requests` call is attempted, and the
`time.sleep` throttle. -/
inductive Event where
  | listChannels
  | create (name : Option String) (is_private : Bool)
  | setPurpose (channel : String) (purpose : String)
  | invite (channel : String) (users : String)
  | sleep (seconds : Nat)
deriving DecidableEq

/-- A Python exception escaping a modelled function: a `RequestException`,
a plain `Exception` with a message, or a `KeyError` on the named key. -/
inductive PyError where
  | requestException
  | exception (msg : String)
  | keyError (key : String)
deriving DecidableEq

/-- Embedding of `get_existing_channels` (src lines 16-43): issues the
`conversations.list` query; on `RequestException` (transport or
`raise_for_status`) or an `ok: false` envelope it logs and returns `[]`;
on success it returns `data.get("channels", [])`. -/
def get_existing_channels (w : World) : List ExistingChannel × List Event :=
  match w.listOutcome with
  | ApiOutcome.ok chans => (chans, [Event.listChannels])
  | ApiOutcome.transportErr => ([], [Event.listChannels])
  | ApiOutcome.httpErr => ([], [Event.listChannels])
  | ApiOutcome.notOk _ => ([], [Event.listChannels])

/-- Embedding of `invite_users_to_channel` (src lines 101-127): the
`requests.post` stands outside the `try`, so a transport error there
escapes as a `RequestException`; `raise_for_status` errors and `ok: false`
envelopes are caught by `except Exception` and re-raised as a plain
`Exception`; on success the function returns the result envelope. -/
def invite_users_to_channel (w : World) (channel_id : String) (user_ids : List String) :
    Except PyError Unit × List Event :=
  let users := String.intercalate "," user_ids
  let ev := Event.invite channel_id users
  match w.inviteOutcome channel_id users with
  | InviteOutcome.transportAtPost => (Except.error PyError.requestException, [ev])
  | InviteOutcome.httpErr =>
      (Except.error (PyError.exception "HTTPError status"), [ev])
  | InviteOutcome.notOk e =>
      (Except.error (PyError.exception ("Slack API Error: " ++ e)), [ev])
  | InviteOutcome.ok => (Except.ok (), [ev])

/-- Embedding of `create_channel` (src lines 46-98): posts
`conversations.create`; on `RequestException` or `ok: false` it returns
`False` without further calls; on success it posts
`conversations.setPurpose`, with the same failure handling; on success it
calls `invite_users_to_channel` and returns `True`.  The whole body sits
in one `try ... except RequestException: return False`, so a
`RequestException` escaping the invite call is caught here and turned
into `False`, while a plain `Exception` from it propagates upward. -/
def create_channel (w : World) (channel_name : Option String) (description : String)
    (is_private : Bool) (invite_users_list : List String) :
    Except PyError Bool × List Event :=
  let cev := Event.create channel_name is_private
  match w.createOutcome channel_name is_private with
  | ApiOutcome.transportErr => (Except.ok false, [cev])
  | ApiOutcome.httpErr => (Except.ok false, [cev])
  | ApiOutcome.notOk _ => (Except.ok false, [cev])
  | ApiOutcome.ok channel_id =>
      let pev := Event.setPurpose channel_id description
      match w.purposeOutcome channel_id description with
      | ApiOutcome.transportErr => (Except.ok false, [cev, pev])
      | ApiOutcome.httpErr => (Except.ok false, [cev, pev])
      | ApiOutcome.notOk _ => (Except.ok false, [cev, pev])
      | ApiOutcome.ok _ =>
          match invite_users_to_channel w channel_id invite_users_list with
          | (Except.error PyError.requestException, tr) =>
              (Except.ok false, cev :: pev :: tr)
          | (Except.error e, tr) => (Except.error e, cev :: pev :: tr)
          | (Except.ok _, tr) => (Except.ok true, cev :: pev :: tr)

/-- Result of the duplicate-check loop of `main` (src lines 151-155):
`keyError` when the loop hits an entry without a `name` key
(`channel["name"]`), `collision` when a desired name is in the existing
set, `clean` when the loop finishes. -/
inductive CollisionScan where
  | clean
  | collision (name : String)
  | keyError
deriving DecidableEq

/-- Embedding of the duplicate-check loop of `main` (src lines 151-155):
for each entry of `channels_list`, evaluate `channel["name"]` (a
`KeyError` when the key is absent) and abort on the first name found in
`existing_channel_names`. -/
def scanCollisions : List ChannelEntry → List String → CollisionScan
  | [], _ => CollisionScan.clean
  | ⟨none, _, _⟩ :: _, _ => CollisionScan.keyError
  | ⟨some nm, _, _⟩ :: rest, names =>
      if nm ∈ names then CollisionScan.collision nm
      else scanCollisions rest names

/-- `channel.get("name")` in the creation loop (src line 159): no default,
an absent key stays absent. -/
def loadedName (c : ChannelEntry) : Option String := c.name

/-- `channel.get("description", "")` (src line 160): default empty string. -/
def loadedDescription (c : ChannelEntry) : String := (c.description).getD ""

/-- `channel.get("is_private", False)` (src line 161): default `False`,
that is, a public channel. -/
def loadedIsPrivate (c : ChannelEntry) : Bool := (c.is_private).getD false

/-- How a run of `main` ends: early `return` on a config load error, on a
collision, or on a `False` from `create_channel`; normal completion; or an
uncaught Python exception escaping `main`. -/
inductive RunOutcome where
  | configError
  | collisionAbort (name : String)
  | createFailAbort (name : Option String)
  | completed
  | uncaughtError (e : PyError)
deriving DecidableEq

/-- Outcome of loading one JSON document in `main` (src lines 137-144):
`err` covers both `IOError` and `json.JSONDecodeError`. -/
inductive LoadOutcome (α : Type) where
  | err
  | okVal (v : α)
deriving DecidableEq

/-- Oracle for the two file loads of `main`: `channels.json` and
`init_invite_users.json`. -/
structure Config where
  channelsLoad : LoadOutcome (List ChannelEntry)
  inviteesLoad : LoadOutcome InviteDoc

/-- The set comprehension of src line 148: the names of the fetched
existing channels (membership in the Python `set` is name membership). -/
def existingNames (chans : List ExistingChannel) : List String :=
  chans.map ExistingChannel.name

/-- Embedding of the creation loop of `main` (src lines 158-169): for each
entry, evaluate `invite_users_list["users"]` (a `KeyError` when absent),
call `create_channel` with the loaded fields, return on `False`, sleep 1
second after each success, and let an exception propagate. -/
def provisionLoop (w : World) (invite_users_list : InviteDoc) :
    List ChannelEntry → RunOutcome × List Event
  | [] => (RunOutcome.completed, [])
  | c :: rest =>
      match invite_users_list.users with
      | none => (RunOutcome.uncaughtError (PyError.keyError "users"), [])
      | some users =>
          match create_channel w (loadedName c) (loadedDescription c)
              (loadedIsPrivate c) users with
          | (Except.ok true, tr) =>
              let next := provisionLoop w invite_users_list rest
              (next.1, tr ++ Event.sleep 1 :: next.2)
          | (Except.ok false, tr) =>
              (RunOutcome.createFailAbort (loadedName c), tr)
          | (Except.error e, tr) => (RunOutcome.uncaughtError e, tr)

/-- Embedding of `main` (src lines 130-169): load the two JSON documents
(early return on failure, before any network call), fetch existing
channels, build the existing-name set, run the duplicate check, then the
creation loop. -/
def main (w : World) (cfg : Config) : RunOutcome × List Event :=
  match cfg.channelsLoad with
  | LoadOutcome.err => (RunOutcome.configError, [])
  | LoadOutcome.okVal channels_list =>
      match cfg.inviteesLoad with
      | LoadOutcome.err => (RunOutcome.configError, [])
      | LoadOutcome.okVal invite_users_list =>
          let fetched := get_existing_channels w
          let names := existingNames fetched.1
          match scanCollisions channels_list names with
          | CollisionScan.keyError =>
              (RunOutcome.uncaughtError (PyError.keyError "name"), fetched.2)
          | CollisionScan.collision nm => (RunOutcome.collisionAbort nm, fetched.2)
          | CollisionScan.clean =>
              let run := provisionLoop w invite_users_list channels_list
              (run.1, fetched.2 ++ run.2)

/-- `true` exactly on `conversations.create` events. -/
def isCreateEvent : Event → Bool
  | Event.create _ _ => true
  | _ => false

/-- `true` exactly on `conversations.setPurpose` events. -/
def isPurposeEvent : Event → Bool
  | Event.setPurpose _ _ => true
  | _ => false

/-- `true` exactly on `conversations.invite` events. -/
def isInviteEvent : Event → Bool
  | Event.invite _ _ => true
  | _ => false

/-- `true` exactly on the three mutating remote calls. -/
def isMutationEvent (e : Event) : Bool :=
  isCreateEvent e || isPurposeEvent e || isInviteEvent e

/-- Number of `conversations.create` calls in a trace. -/
def countCreates (tr : List Event) : Nat := (tr.filter isCreateEvent).length

/-- Number of `conversations.setPurpose` calls in a trace. -/
def countPurposes (tr : List Event) : Nat := (tr.filter isPurposeEvent).length

/-- Number of `conversations.invite` calls in a trace. -/
def countInvites (tr : List Event) : Nat := (tr.filter isInviteEvent).length

/-- Number of mutating remote calls in a trace. -/
def mutationCount (tr : List Event) : Nat := (tr.filter isMutationEvent).length

/-- The channel id carried by a successful `conversations.create`
response, empty string otherwise (only applied to successful outcomes). -/
def okId : ApiOutcome String → String
  | ApiOutcome.ok cid => cid
  | _ => ""

/-- The four-event block a fully successful provisioning of one channel
contributes to the trace: create, setPurpose, invite, then the throttle
sleep of src line 169. -/
def channelBlock (w : World) (usersJoined : String) (c : ChannelEntry) : List Event :=
  let cid := okId (w.createOutcome (loadedName c) (loadedIsPrivate c))
  [Event.create (loadedName c) (loadedIsPrivate c),
   Event.setPurpose cid (loadedDescription c),
   Event.invite cid usersJoined,
   Event.sleep 1]

/-! ## Helper lemmas -/

theorem scan_not_clean_of_mem (cl : List ChannelEntry) (names : List String)
    (h : ∃ c ∈ cl, ∃ nm, c.name = some nm ∧ nm ∈ names) :
    scanCollisions cl names ≠ CollisionScan.clean := by
  induction cl with
  | nil => rcases h with ⟨c, hc, _⟩; exact absurd hc (List.not_mem_nil c)
  | cons c0 rest ih =>
      obtain ⟨n0, d0, p0⟩ := c0
      rcases h with ⟨c, hc, nm, hnm, hmem⟩
      cases n0 with
      | none => simp [scanCollisions]
      | some m =>
          by_cases hm : m ∈ names
          · simp [scanCollisions, hm]
          · simp only [scanCollisions, if_neg hm]
            apply ih
            rcases List.mem_cons.mp hc with hhead | htail
            · subst hhead
              have hmn : m = nm := by simpa using hnm
              exact absurd (by rwa [hmn]) hm
            · exact ⟨c, htail, nm, hnm, hmem⟩

theorem scan_clean_of_fresh (cl : List ChannelEntry) (names : List String)
    (h : ∀ c ∈ cl, ∃ nm, c.name = some nm ∧ nm ∉ names) :
    scanCollisions cl names = CollisionScan.clean := by
  induction cl with
  | nil => rfl
  | cons c0 rest ih =>
      obtain ⟨n0, d0, p0⟩ := c0
      rcases h _ (List.mem_cons_self _ _) with ⟨nm, hnm, hout⟩
      cases n0 with
      | none => exact absurd hnm (by simp)
      | some m =>
          have hm : m ∉ names := by
            have hmn : m = nm := by simpa using hnm
            rwa [hmn]
          simp only [scanCollisions, if_neg hm]
          exact ih fun c hc => h c (List.mem_cons_of_mem _ hc)

theorem mutationCount_append (a b : List Event) :
    mutationCount (a ++ b) = mutationCount a + mutationCount b := by
  simp [mutationCount, List.filter_append]

theorem countCreates_append (a b : List Event) :
    countCreates (a ++ b) = countCreates a + countCreates b := by
  simp [countCreates, List.filter_append]

theorem countCreates_create_channel_pos (w : World) (nm : Option String)
    (d : String) (p : Bool) (us : List String) :
    1 ≤ countCreates (create_channel w nm d p us).2 := by
  cases h1 : w.createOutcome nm p with
  | ok cid =>
      cases h2 : w.purposeOutcome cid d with
      | ok u =>
          cases h3 : w.inviteOutcome cid (String.intercalate "," us) <;>
            simp [create_channel, invite_users_to_channel, h1, h2, h3,
              countCreates, isCreateEvent]
      | transportErr => simp [create_channel, h1, h2, countCreates, isCreateEvent]
      | httpErr => simp [create_channel, h1, h2, countCreates, isCreateEvent]
      | notOk e => simp [create_channel, h1, h2, countCreates, isCreateEvent]
  | transportErr => simp [create_channel, h1, countCreates, isCreateEvent]
  | httpErr => simp [create_channel, h1, countCreates, isCreateEvent]
  | notOk e => simp [create_channel, h1, countCreates, isCreateEvent]

/-! ## Claim theorems -/

/-- C1: whenever the desired channel list contains an entry whose name is
among the names returned by the existing-channels query, the run of
`main` issues zero create, setPurpose, and invite calls — also for
non-colliding entries of the list. -/
theorem C1_collision_halts_all_mutations (w : World) (cfg : Config)
    (cl : List ChannelEntry) (chans : List ExistingChannel)
    (c : ChannelEntry) (nm : String)
    (hcl : cfg.channelsLoad = LoadOutcome.okVal cl)
    (hlist : w.listOutcome = ApiOutcome.ok chans)
    (hc : c ∈ cl) (hnm : c.name = some nm)
    (hmem : nm ∈ existingNames chans) :
    mutationCount (main w cfg).2 = 0 := by
  have hscan := scan_not_clean_of_mem cl (existingNames chans) ⟨c, hc, nm, hnm, hmem⟩
  unfold main
  rw [hcl]
  cases hinv : cfg.inviteesLoad with
  | err => rfl
  | okVal doc =>
      have hget : get_existing_channels w = (chans, [Event.listChannels]) := by
        simp [get_existing_channels, hlist]
      simp only [hget]
      cases hsc : scanCollisions cl (existingNames chans) with
      | clean => exact absurd hsc hscan
      | collision n => rfl
      | keyError => rfl

def wC1 : World where
  listOutcome := ApiOutcome.ok [⟨"C001", "general"⟩]
  createOutcome := fun _ _ => ApiOutcome.ok "CNEW"
  purposeOutcome := fun _ _ => ApiOutcome.ok ()
  inviteOutcome := fun _ _ => InviteOutcome.ok

def cfgC1 : Config where
  channelsLoad := LoadOutcome.okVal
    [⟨some "proj-a", some "a desc", some false⟩, ⟨some "general", none, none⟩]
  inviteesLoad := LoadOutcome.okVal ⟨some ["U1", "U2"]⟩

/-- Witness for C1 at a concrete colliding input. -/
theorem C1_witness : mutationCount (main wC1 cfgC1).2 = 0 :=
  C1_collision_halts_all_mutations wC1 cfgC1
    [⟨some "proj-a", some "a desc", some false⟩, ⟨some "general", none, none⟩]
    [⟨"C001", "general"⟩] ⟨some "general", none, none⟩ "general"
    rfl rfl (by decide) rfl (by decide)

/-- C3: when the `conversations.list` request raises a transport error, or
`raise_for_status` raises, or the response carries `ok: false`,
`get_existing_channels` returns the empty list — the very pair a
successful empty listing produces, so the caller cannot distinguish the
two from the return value. -/
theorem C3_list_failure_returns_empty (w : World)
    (h : w.listOutcome = ApiOutcome.transportErr ∨
         w.listOutcome = ApiOutcome.httpErr ∨
         ∃ e, w.listOutcome = ApiOutcome.notOk e) :
    get_existing_channels w = ([], [Event.listChannels]) := by
  rcases h with h | h | ⟨e, h⟩ <;> simp [get_existing_channels, h]

def wC3 : World where
  listOutcome := ApiOutcome.transportErr
  createOutcome := fun _ _ => ApiOutcome.ok "CNEW"
  purposeOutcome := fun _ _ => ApiOutcome.ok ()
  inviteOutcome := fun _ _ => InviteOutcome.ok

/-- Witness for C3 at a concrete transport failure. -/
theorem C3_witness : get_existing_channels wC3 = ([], [Event.listChannels]) :=
  C3_list_failure_returns_empty wC3 (Or.inl rfl)

/-- C9: when either input document is missing or malformed, `main` returns
the config-error outcome with an empty trace — no network call at all, in
particular no existing-channels query and no creation call. -/
theorem C9_config_error_before_network (w : World) (cfg : Config)
    (h : cfg.channelsLoad = LoadOutcome.err ∨ cfg.inviteesLoad = LoadOutcome.err) :
    main w cfg = (RunOutcome.configError, []) := by
  rcases h with h | h
  · unfold main; rw [h]
  · unfold main
    cases hcl : cfg.channelsLoad with
    | err => rfl
    | okVal cl => rw [h]

def wC9 : World where
  listOutcome := ApiOutcome.ok []
  createOutcome := fun _ _ => ApiOutcome.ok "CNEW"
  purposeOutcome := fun _ _ => ApiOutcome.ok ()
  inviteOutcome := fun _ _ => InviteOutcome.ok

def cfgC9 : Config where
  channelsLoad := LoadOutcome.err
  inviteesLoad := LoadOutcome.okVal ⟨some ["U1"]⟩

/-- Witness for C9 at a concrete malformed channels document. -/
theorem C9_witness : main wC9 cfgC9 = (RunOutcome.configError, []) :=
  C9_config_error_before_network wC9 cfgC9 (Or.inl rfl)

/-- C10: when the invitee document parses but lacks the `users` key, the
run does not abort at config loading: it issues the existing-channels
query, passes the collision check, and only then raises the uncaught
`KeyError` on `users` while preparing the first channel — with zero
mutating calls but after the network query was issued. -/
theorem C10_missing_users_key_late_keyerror (w : World) (cfg : Config)
    (chans : List ExistingChannel) (doc : InviteDoc)
    (c : ChannelEntry) (rest : List ChannelEntry)
    (hcl : cfg.channelsLoad = LoadOutcome.okVal (c :: rest))
    (hinv : cfg.inviteesLoad = LoadOutcome.okVal doc)
    (hus : doc.users = none)
    (hlist : w.listOutcome = ApiOutcome.ok chans)
    (hscan : scanCollisions (c :: rest) (existingNames chans) = CollisionScan.clean) :
    main w cfg = (RunOutcome.uncaughtError (PyError.keyError "users"),
      [Event.listChannels]) := by
  unfold main
  rw [hcl, hinv]
  have hget : get_existing_channels w = (chans, [Event.listChannels]) := by
    simp [get_existing_channels, hlist]
  simp only [hget, hscan, provisionLoop, hus]
  rfl

def wC10 : World where
  listOutcome := ApiOutcome.ok [⟨"C001", "general"⟩]
  createOutcome := fun _ _ => ApiOutcome.ok "CNEW"
  purposeOutcome := fun _ _ => ApiOutcome.ok ()
  inviteOutcome := fun _ _ => InviteOutcome.ok

def cfgC10 : Config where
  channelsLoad := LoadOutcome.okVal [⟨some "proj-a", none, none⟩]
  inviteesLoad := LoadOutcome.okVal ⟨none⟩

/-- Witness for C10 at a concrete invitee document without `users`. -/
theorem C10_witness :
    main wC10 cfgC10 = (RunOutcome.uncaughtError (PyError.keyError "users"),
      [Event.listChannels]) :=
  C10_missing_users_key_late_keyerror wC10 cfgC10 [⟨"C001", "general"⟩] ⟨none⟩
    ⟨some "proj-a", none, none⟩ [] rfl rfl rfl rfl (by decide)

/-- C4: when the `conversations.create` call for a channel fails — a
transport error, a `raise_for_status` error, or an `ok: false` envelope —
the creation loop, resumed at that channel, ends at once with the
create-failure abort: the trace holds that single create attempt, no
setPurpose call, no invite call, and nothing for any later entry of the
list. -/
theorem C4_create_failure_terminal (w : World) (doc : InviteDoc)
    (us : List String) (c : ChannelEntry) (rest : List ChannelEntry)
    (hus : doc.users = some us)
    (hfail : w.createOutcome (loadedName c) (loadedIsPrivate c) = ApiOutcome.transportErr ∨
             w.createOutcome (loadedName c) (loadedIsPrivate c) = ApiOutcome.httpErr ∨
             ∃ e, w.createOutcome (loadedName c) (loadedIsPrivate c) = ApiOutcome.notOk e) :
    provisionLoop w doc (c :: rest) =
      (RunOutcome.createFailAbort (loadedName c),
       [Event.create (loadedName c) (loadedIsPrivate c)]) := by
  rcases hfail with h | h | ⟨e, h⟩ <;>
    simp [provisionLoop, hus, create_channel, h]

def wC4 : World where
  listOutcome := ApiOutcome.ok []
  createOutcome := fun _ _ => ApiOutcome.notOk "name_taken"
  purposeOutcome := fun _ _ => ApiOutcome.ok ()
  inviteOutcome := fun _ _ => InviteOutcome.ok

/-- Witness for C4 at a concrete failing create call, with a further
entry behind the failing one. -/
theorem C4_witness :
    provisionLoop wC4 ⟨some ["U1"]⟩
      [⟨some "proj-a", none, none⟩, ⟨some "proj-b", none, none⟩] =
      (RunOutcome.createFailAbort (some "proj-a"),
       [Event.create (some "proj-a") false]) :=
  C4_create_failure_terminal wC4 ⟨some ["U1"]⟩ ["U1"]
    ⟨some "proj-a", none, none⟩ [⟨some "proj-b", none, none⟩]
    rfl (Or.inr (Or.inr ⟨"name_taken", rfl⟩))

/-- C5: when the create call for a channel succeeds but the
`conversations.setPurpose` call fails, the creation loop resumed at that
channel ends with the create-failure abort: the trace holds the create
and the setPurpose attempt only — no invite call, nothing for later
entries, and no further call touching the created channel (no rollback
event exists in the model, matching the source, which has no delete
path). -/
theorem C5_purpose_failure_terminal (w : World) (doc : InviteDoc)
    (us : List String) (c : ChannelEntry) (rest : List ChannelEntry) (cid : String)
    (hus : doc.users = some us)
    (hok : w.createOutcome (loadedName c) (loadedIsPrivate c) = ApiOutcome.ok cid)
    (hfail : w.purposeOutcome cid (loadedDescription c) = ApiOutcome.transportErr ∨
             w.purposeOutcome cid (loadedDescription c) = ApiOutcome.httpErr ∨
             ∃ e, w.purposeOutcome cid (loadedDescription c) = ApiOutcome.notOk e) :
    provisionLoop w doc (c :: rest) =
      (RunOutcome.createFailAbort (loadedName c),
       [Event.create (loadedName c) (loadedIsPrivate c),
        Event.setPurpose cid (loadedDescription c)]) := by
  rcases hfail with h | h | ⟨e, h⟩ <;>
    simp [provisionLoop, hus, create_channel, hok, h]

def wC5 : World where
  listOutcome := ApiOutcome.ok []
  createOutcome := fun _ _ => ApiOutcome.ok "CNEW"
  purposeOutcome := fun _ _ => ApiOutcome.transportErr
  inviteOutcome := fun _ _ => InviteOutcome.ok

/-- Witness for C5 at a concrete failing setPurpose call. -/
theorem C5_witness :
    provisionLoop wC5 ⟨some ["U1"]⟩
      [⟨some "proj-a", some "the purpose", none⟩, ⟨some "proj-b", none, none⟩] =
      (RunOutcome.createFailAbort (some "proj-a"),
       [Event.create (some "proj-a") false,
        Event.setPurpose "CNEW" "the purpose"]) :=
  C5_purpose_failure_terminal wC5 ⟨some ["U1"]⟩ ["U1"]
    ⟨some "proj-a", some "the purpose", none⟩ [⟨some "proj-b", none, none⟩] "CNEW"
    rfl rfl (Or.inl rfl)

def wC6 : World where
  listOutcome := ApiOutcome.ok []
  createOutcome := fun _ _ => ApiOutcome.ok "CNEW"
  purposeOutcome := fun _ _ => ApiOutcome.ok ()
  inviteOutcome := fun _ _ => InviteOutcome.transportAtPost

def cfgC6 : Config where
  channelsLoad := LoadOutcome.okVal [⟨some "proj-a", none, none⟩]
  inviteesLoad := LoadOutcome.okVal ⟨some ["U1"]⟩

/-- Counterexample to C6 as stated: with create and setPurpose succeeding
and the invite `requests.post` itself raising a transport error, the
invite call is attempted (one invite event in the trace) but the run ends
in the returned-flag abort `createFailAbort`, not in an uncaught
exception — because the `requests.post` of `invite_users_to_channel`
stands outside its `try`, so the `RequestException` escapes to
`create_channel`, whose `except RequestException` turns it into
`return False`. -/
theorem C6_counterexample :
    (main wC6 cfgC6).1 = RunOutcome.createFailAbort (some "proj-a") ∧
    countInvites (main wC6 cfgC6).2 = 1 := by
  exact ⟨rfl, rfl⟩

/-- C6 amended: when create and setPurpose succeed and the invite call
fails, no later entry is processed (the trace of the loop resumed at that
channel is exactly create, setPurpose, invite), and the failure surfaces
as an uncaught exception precisely when it is not a transport error
raised by the `requests.post` itself; in that transport case it surfaces
as the returned-flag abort instead. -/
theorem C6_amended_invite_failure_paths (w : World) (doc : InviteDoc)
    (us : List String) (c : ChannelEntry) (rest : List ChannelEntry) (cid : String)
    (hus : doc.users = some us)
    (hok : w.createOutcome (loadedName c) (loadedIsPrivate c) = ApiOutcome.ok cid)
    (hpok : w.purposeOutcome cid (loadedDescription c) = ApiOutcome.ok ())
    (hfail : w.inviteOutcome cid (String.intercalate "," us) ≠ InviteOutcome.ok) :
    (provisionLoop w doc (c :: rest)).2 =
      [Event.create (loadedName c) (loadedIsPrivate c),
       Event.setPurpose cid (loadedDescription c),
       Event.invite cid (String.intercalate "," us)] ∧
    ((∃ e, (provisionLoop w doc (c :: rest)).1 = RunOutcome.uncaughtError e) ↔
       w.inviteOutcome cid (String.intercalate "," us) ≠ InviteOutcome.transportAtPost) ∧
    (w.inviteOutcome cid (String.intercalate "," us) = InviteOutcome.transportAtPost →
       (provisionLoop w doc (c :: rest)).1 = RunOutcome.createFailAbort (loadedName c)) := by
  cases h3 : w.inviteOutcome cid (String.intercalate "," us) with
  | ok => exact absurd h3 hfail
  | transportAtPost =>
      refine ⟨?_, ?_, ?_⟩ <;>
        simp [provisionLoop, hus, create_channel, invite_users_to_channel, hok, hpok, h3]
  | httpErr =>
      refine ⟨?_, ?_, ?_⟩ <;>
        simp [provisionLoop, hus, create_channel, invite_users_to_channel, hok, hpok, h3]
  | notOk e =>
      refine ⟨?_, ?_, ?_⟩ <;>
        simp [provisionLoop, hus, create_channel, invite_users_to_channel, hok, hpok, h3]

def wC6A : World where
  listOutcome := ApiOutcome.ok []
  createOutcome := fun _ _ => ApiOutcome.ok "CNEW"
  purposeOutcome := fun _ _ => ApiOutcome.ok ()
  inviteOutcome := fun _ _ => InviteOutcome.notOk "cant_invite"

/-- Witness for the amended C6 at a concrete `ok: false` invite
response. -/
theorem C6_amended_witness :
    (provisionLoop wC6A ⟨some ["U1", "U2"]⟩
        [⟨some "proj-a", none, none⟩, ⟨some "proj-b", none, none⟩]).2 =
      [Event.create (some "proj-a") false,
       Event.setPurpose "CNEW" "",
       Event.invite "CNEW" "U1,U2"] ∧
    ((∃ e, (provisionLoop wC6A ⟨some ["U1", "U2"]⟩
        [⟨some "proj-a", none, none⟩, ⟨some "proj-b", none, none⟩]).1 =
        RunOutcome.uncaughtError e) ↔
      wC6A.inviteOutcome "CNEW" (String.intercalate "," ["U1", "U2"]) ≠
        InviteOutcome.transportAtPost) ∧
    (wC6A.inviteOutcome "CNEW" (String.intercalate "," ["U1", "U2"]) =
        InviteOutcome.transportAtPost →
      (provisionLoop wC6A ⟨some ["U1", "U2"]⟩
          [⟨some "proj-a", none, none⟩, ⟨some "proj-b", none, none⟩]).1 =
        RunOutcome.createFailAbort (some "proj-a")) :=
  C6_amended_invite_failure_paths wC6A ⟨some ["U1", "U2"]⟩ ["U1", "U2"]
    ⟨some "proj-a", none, none⟩ [⟨some "proj-b", none, none⟩] "CNEW"
    rfl rfl rfl (by decide)

theorem countCreates_provisionLoop_cons_pos (w : World) (doc : InviteDoc)
    (us : List String) (c : ChannelEntry) (rest : List ChannelEntry)
    (hus : doc.users = some us) :
    1 ≤ countCreates (provisionLoop w doc (c :: rest)).2 := by
  have hcc := countCreates_create_channel_pos w (loadedName c)
    (loadedDescription c) (loadedIsPrivate c) us
  cases hres : create_channel w (loadedName c) (loadedDescription c)
      (loadedIsPrivate c) us with
  | mk r tr =>
      rw [hres] at hcc
      simp only at hcc
      cases r with
      | ok b =>
          cases b with
          | true =>
              simp only [provisionLoop, hus, hres]
              simp only [countCreates_append]
              omega
          | false => simpa [provisionLoop, hus, hres] using hcc
      | error e => simpa [provisionLoop, hus, hres] using hcc

def wC2 : World where
  listOutcome := ApiOutcome.ok []
  createOutcome := fun _ _ => ApiOutcome.ok "CNEW"
  purposeOutcome := fun _ _ => ApiOutcome.ok ()
  inviteOutcome := fun _ _ => InviteOutcome.ok

def cfgC2 : Config where
  channelsLoad := LoadOutcome.okVal
    [⟨some "proj-a", none, none⟩, ⟨some "proj-a", none, none⟩]
  inviteesLoad := LoadOutcome.okVal ⟨some ["U1"]⟩

/-- Counterexample to C2 as stated: a desired list with two entries named
`proj-a` and an empty remote set passes the duplicate check untouched —
the source only compares desired names against `existing_channel_names` —
so the run issues a create call for each of the two sibling duplicates
(here both succeed against the oracle) instead of halting with zero
mutations. -/
theorem C2_counterexample :
    countCreates (main wC2 cfgC2).2 = 2 ∧ (main wC2 cfgC2).1 = RunOutcome.completed := by
  exact ⟨rfl, rfl⟩

/-- C2 amended: the duplicate check compares desired names only against
the remote existing set; sibling duplicates inside the batch are not
detected, so a desired list whose names are all absent remotely — even
one containing the same name twice — passes the gate and at least one
create call is issued. -/
theorem C2_amended_sibling_duplicates_not_gated (w : World) (cfg : Config)
    (cl : List ChannelEntry) (chans : List ExistingChannel) (doc : InviteDoc)
    (us : List String)
    (hcl : cfg.channelsLoad = LoadOutcome.okVal cl)
    (hinv : cfg.inviteesLoad = LoadOutcome.okVal doc)
    (hus : doc.users = some us)
    (hlist : w.listOutcome = ApiOutcome.ok chans)
    (hfresh : ∀ c ∈ cl, ∃ nm, c.name = some nm ∧ nm ∉ existingNames chans)
    (hdup : ∃ nm, 2 ≤ (cl.filterMap ChannelEntry.name).count nm) :
    1 ≤ countCreates (main w cfg).2 := by
  rcases hdup with ⟨nm, hnm⟩
  cases cl with
  | nil => simp at hnm
  | cons c rest =>
      unfold main
      rw [hcl, hinv]
      have hget : get_existing_channels w = (chans, [Event.listChannels]) := by
        simp [get_existing_channels, hlist]
      have hscan := scan_clean_of_fresh (c :: rest) (existingNames chans) hfresh
      simp only [hget, hscan]
      rw [countCreates_append]
      have hloop := countCreates_provisionLoop_cons_pos w doc us c rest hus
      have hzero : countCreates [Event.listChannels] = 0 := rfl
      omega

/-- Witness for the amended C2 at the concrete duplicate batch of the
counterexample. -/
theorem C2_amended_witness : 1 ≤ countCreates (main wC2 cfgC2).2 :=
  C2_amended_sibling_duplicates_not_gated wC2 cfgC2
    [⟨some "proj-a", none, none⟩, ⟨some "proj-a", none, none⟩] []
    ⟨some ["U1"]⟩ ["U1"] rfl rfl rfl rfl
    (by simp [existingNames])
    ⟨"proj-a", by decide⟩

theorem countPurposes_append (a b : List Event) :
    countPurposes (a ++ b) = countPurposes a + countPurposes b := by
  simp [countPurposes, List.filter_append]

theorem countInvites_append (a b : List Event) :
    countInvites (a ++ b) = countInvites a + countInvites b := by
  simp [countInvites, List.filter_append]

theorem countCreates_channelBlock (w : World) (uj : String) (c : ChannelEntry) :
    countCreates (channelBlock w uj c) = 1 := rfl

theorem countPurposes_channelBlock (w : World) (uj : String) (c : ChannelEntry) :
    countPurposes (channelBlock w uj c) = 1 := rfl

theorem countInvites_channelBlock (w : World) (uj : String) (c : ChannelEntry) :
    countInvites (channelBlock w uj c) = 1 := rfl

theorem counts_flatMap_channelBlock (w : World) (uj : String) (cl : List ChannelEntry) :
    countCreates (cl.flatMap (channelBlock w uj)) = cl.length ∧
    countPurposes (cl.flatMap (channelBlock w uj)) = cl.length ∧
    countInvites (cl.flatMap (channelBlock w uj)) = cl.length := by
  induction cl with
  | nil => exact ⟨rfl, rfl, rfl⟩
  | cons c rest ih =>
      rcases ih with ⟨h1, h2, h3⟩
      refine ⟨?_, ?_, ?_⟩ <;>
        simp [List.flatMap_cons, countCreates_append, countPurposes_append,
          countInvites_append, countCreates_channelBlock,
          countPurposes_channelBlock, countInvites_channelBlock, h1, h2, h3,
          Nat.add_comm]

theorem provisionLoop_all_ok (w : World) (doc : InviteDoc) (us : List String)
    (cl : List ChannelEntry)
    (hus : doc.users = some us)
    (hcreate : ∀ c ∈ cl, ∃ cid,
      w.createOutcome (loadedName c) (loadedIsPrivate c) = ApiOutcome.ok cid)
    (hpurp : ∀ cid d, w.purposeOutcome cid d = ApiOutcome.ok ())
    (hinvite : ∀ cid uj, w.inviteOutcome cid uj = InviteOutcome.ok) :
    provisionLoop w doc cl =
      (RunOutcome.completed,
       cl.flatMap (channelBlock w (String.intercalate "," us))) := by
  induction cl with
  | nil => rfl
  | cons c rest ih =>
      rcases hcreate c (List.mem_cons_self _ _) with ⟨cid, hcid⟩
      have hrest := ih fun c2 hc2 => hcreate c2 (List.mem_cons_of_mem _ hc2)
      have hcc : create_channel w (loadedName c) (loadedDescription c)
          (loadedIsPrivate c) us =
          (Except.ok true,
           [Event.create (loadedName c) (loadedIsPrivate c),
            Event.setPurpose cid (loadedDescription c),
            Event.invite cid (String.intercalate "," us)]) := by
        simp [create_channel, invite_users_to_channel, hcid, hpurp, hinvite]
      simp only [provisionLoop, hus, hcc, hrest]
      simp [channelBlock, okId, hcid]

/-- C7: with both documents loaded, every desired name carrying a name
absent from the fetched remote set, and every remote call succeeding, the
run completes and its trace is exactly the listing query followed by one
block per channel in input order — create, then setPurpose, then invite,
then the 1-second throttle sleep — before any call of the next channel;
in particular there are exactly as many create, setPurpose, and invite
calls as channels. -/
theorem C7_clean_run_exact_trace (w : World) (cfg : Config)
    (cl : List ChannelEntry) (chans : List ExistingChannel) (doc : InviteDoc)
    (us : List String)
    (hcl : cfg.channelsLoad = LoadOutcome.okVal cl)
    (hinv : cfg.inviteesLoad = LoadOutcome.okVal doc)
    (hus : doc.users = some us)
    (hlist : w.listOutcome = ApiOutcome.ok chans)
    (hfresh : ∀ c ∈ cl, ∃ nm, c.name = some nm ∧ nm ∉ existingNames chans)
    (hcreate : ∀ c ∈ cl, ∃ cid,
      w.createOutcome (loadedName c) (loadedIsPrivate c) = ApiOutcome.ok cid)
    (hpurp : ∀ cid d, w.purposeOutcome cid d = ApiOutcome.ok ())
    (hinvite : ∀ cid uj, w.inviteOutcome cid uj = InviteOutcome.ok) :
    main w cfg =
      (RunOutcome.completed,
       Event.listChannels :: cl.flatMap (channelBlock w (String.intercalate "," us))) ∧
    countCreates (main w cfg).2 = cl.length ∧
    countPurposes (main w cfg).2 = cl.length ∧
    countInvites (main w cfg).2 = cl.length := by
  have hget : get_existing_channels w = (chans, [Event.listChannels]) := by
    simp [get_existing_channels, hlist]
  have hscan := scan_clean_of_fresh cl (existingNames chans) hfresh
  have hloop := provisionLoop_all_ok w doc us cl hus hcreate hpurp hinvite
  have hmain : main w cfg =
      (RunOutcome.completed,
       Event.listChannels :: cl.flatMap (channelBlock w (String.intercalate "," us))) := by
    unfold main
    rw [hcl, hinv]
    simp only [hget, hscan, hloop]
    rfl
  rcases counts_flatMap_channelBlock w (String.intercalate "," us) cl with ⟨h1, h2, h3⟩
  rw [hmain]
  refine ⟨rfl, ?_, ?_, ?_⟩ <;>
    simp [countCreates, countPurposes, countInvites, isCreateEvent,
      isPurposeEvent, isInviteEvent, List.filter_cons] <;>
    simp [countCreates, countPurposes, countInvites] at h1 h2 h3 <;>
    assumption

def wC7 : World where
  listOutcome := ApiOutcome.ok [⟨"C001", "general"⟩]
  createOutcome := fun nm _ => ApiOutcome.ok ((nm.getD "") ++ "-id")
  purposeOutcome := fun _ _ => ApiOutcome.ok ()
  inviteOutcome := fun _ _ => InviteOutcome.ok

def cfgC7 : Config where
  channelsLoad := LoadOutcome.okVal
    [⟨some "proj-a", some "alpha", none⟩, ⟨some "proj-b", none, some true⟩]
  inviteesLoad := LoadOutcome.okVal ⟨some ["U1", "U2"]⟩

/-- Witness for C7: the two-channel end-to-end scenario of the spec. -/
theorem C7_witness :
    main wC7 cfgC7 =
      (RunOutcome.completed,
       Event.listChannels ::
         [⟨some "proj-a", some "alpha", none⟩,
          (⟨some "proj-b", none, some true⟩ : ChannelEntry)].flatMap
           (channelBlock wC7 (String.intercalate "," ["U1", "U2"]))) ∧
    countCreates (main wC7 cfgC7).2 = 2 ∧
    countPurposes (main wC7 cfgC7).2 = 2 ∧
    countInvites (main wC7 cfgC7).2 = 2 :=
  C7_clean_run_exact_trace wC7 cfgC7
    [⟨some "proj-a", some "alpha", none⟩, ⟨some "proj-b", none, some true⟩]
    [⟨"C001", "general"⟩] ⟨some ["U1", "U2"]⟩ ["U1", "U2"]
    rfl rfl rfl rfl
    (by simp [existingNames])
    (by intro c hc; exact ⟨(loadedName c).getD "" ++ "-id", rfl⟩)
    (fun _ _ => rfl) (fun _ _ => rfl)

/-- C8: the creation loop gives an absent `description` the default empty
string and an absent `is_private` the default `False` (a public channel),
while an absent `name` receives no default: `channel.get("name")` stays
absent, and the duplicate-check loop, which accesses `channel["name"]`,
raises `KeyError` on such an entry instead of inventing a value. -/
theorem C8_loaded_field_defaults (n : Option String) (dOpt : Option String)
    (pOpt : Option Bool) (d0 : String) (p0 : Bool) (names : List String)
    (rest : List ChannelEntry) :
    loadedDescription ⟨n, none, pOpt⟩ = "" ∧
    loadedIsPrivate ⟨n, dOpt, none⟩ = false ∧
    loadedName ⟨none, some d0, some p0⟩ = none ∧
    scanCollisions (⟨none, some d0, some p0⟩ :: rest) names = CollisionScan.keyError :=
  ⟨rfl, rfl, rfl, rfl⟩

end CreateChannels
